import Mathlib

/-!
Shallow embedding of the appointment service (src/app.py, src/models.py).

Timestamps are modelled as natural numbers counting minutes since a
midnight-aligned epoch, so `t / 60 % 24` is the hour-of-day of `t`
(Python's `datetime.hour`), `t / 1440 * 1440` is midnight of `t`'s calendar
day (`datetime.combine(t.date(), datetime.min.time())`), and a duration of
`h` hours is `h * 60` minutes.  All comparisons the source makes on
fractional hours (`total_seconds() / 3600`) are exact at minute granularity:
`hours > 2` is `now + 120 < slot_start`, `hours > 0` is `now < slot_start`,
`hours <= 1` is `slot_start <= now + 60`.

External collaborators (patient service, doctor service) are modelled as
inputs to the booking operation: a `patient_exists` boolean and a
`doctor_check : Except Err Unit` standing for the outcome of
`verify_patient` / `verify_doctor`.  Billing and notification calls never
affect the store (their failures are swallowed by the source), so they are
not modelled.  `db.commit`/`refresh` are identity at this level; the store
is an explicit value threaded through the operations.
-/

namespace AppointmentService

/-- `models.AppointmentStatus`. -/
inductive Status where
  | SCHEDULED
  | COMPLETED
  | CANCELLED
  | NO_SHOW
  deriving DecidableEq, Repr

/-- The string a status renders as (the `status` column stores these strings). -/
def statusString : Status → String
  | .SCHEDULED => "SCHEDULED"
  | .COMPLETED => "COMPLETED"
  | .CANCELLED => "CANCELLED"
  | .NO_SHOW => "NO_SHOW"

/-- A row of the `appointments` table (`models.Appointment`).  `created_at`
is set by the database and read by no business rule, so it is omitted. -/
structure Appointment where
  appointment_id : Nat
  patient_id : Nat
  doctor_id : Nat
  department : String
  slot_start : Nat
  slot_end : Nat
  status : Status
  reschedule_count : Nat
  deriving DecidableEq, Repr

/-- An `HTTPException`: status code and detail string. -/
structure Err where
  status_code : Nat
  detail : String
  deriving DecidableEq, Repr

/-- The persistent store: the appointment rows in insertion order, plus the
next primary key the database will assign. -/
structure Store where
  appts : List Appointment
  next_id : Nat
  deriving DecidableEq, Repr

def emptyStore : Store := { appts := [], next_id := 0 }

/-- Request body of `POST /v1/appointments` (`models.AppointmentCreate`). -/
structure AppointmentCreate where
  patient_id : Nat
  doctor_id : Nat
  department : String
  slot_start : Nat
  slot_end : Nat
  deriving DecidableEq, Repr

-- Business rules (src/app.py lines 46-49)
def MIN_LEAD_TIME_HOURS : Nat := 2
def MAX_RESCHEDULES : Nat := 2
def RESCHEDULE_CUTOFF_HOURS : Nat := 1
def SLOT_DURATION_MINUTES : Nat := 30

/-- `validate_slot` (src/app.py lines 83-102), with `now` made explicit.
The duration test `(slot_end - slot_start).total_seconds() / 60 != 30`
holds exactly when `slot_end ≠ slot_start + 30` over minute timestamps. -/
def validate_slot (slot_start slot_end now : Nat) : Except Err Unit :=
  if slot_start < now + MIN_LEAD_TIME_HOURS * 60 then
    .error { status_code := 400, detail := "Appointment must be at least 2 hours from now" }
  else if slot_start / 60 % 24 < 9 ∨ 18 ≤ slot_start / 60 % 24 then
    .error { status_code := 400, detail := "Appointments must be between 9 AM and 6 PM" }
  else if slot_end ≠ slot_start + SLOT_DURATION_MINUTES then
    .error { status_code := 400, detail := "Appointment must be exactly 30 minutes" }
  else
    .ok ()

/-- The idempotency lookup filter of `book_appointment` (lines 130-137):
same patient, doctor and slot_start, status SCHEDULED. -/
def idempotent_match (req : AppointmentCreate) (a : Appointment) : Bool :=
  a.patient_id == req.patient_id && a.doctor_id == req.doctor_id &&
    a.slot_start == req.slot_start && a.status == Status.SCHEDULED

/-- The doctor-conflict filter of `book_appointment` (lines 159-166):
status in {SCHEDULED, COMPLETED} and half-open interval overlap. -/
def doctor_overlap_query (doctor_id slot_start slot_end : Nat) (a : Appointment) : Bool :=
  a.doctor_id == doctor_id &&
    (a.status == Status.SCHEDULED || a.status == Status.COMPLETED) &&
    decide (a.slot_start < slot_end) && decide (a.slot_end > slot_start)

/-- The patient-conflict filter of `book_appointment` (lines 172-179):
status SCHEDULED only. -/
def patient_overlap_query (patient_id slot_start slot_end : Nat) (a : Appointment) : Bool :=
  a.patient_id == patient_id && a.status == Status.SCHEDULED &&
    decide (a.slot_start < slot_end) && decide (a.slot_end > slot_start)

/-- The conflict filter of `reschedule_appointment` (lines 265-273):
same doctor, excluding the appointment itself, status SCHEDULED only. -/
def reschedule_overlap_query (doctor_id appointment_id new_start new_end : Nat)
    (a : Appointment) : Bool :=
  a.doctor_id == doctor_id && a.appointment_id != appointment_id &&
    a.status == Status.SCHEDULED &&
    decide (a.slot_start < new_end) && decide (a.slot_end > new_start)

/-- The daily-cap count filter of `book_appointment` (lines 186-192): any
status, slot_start within the requested day's `[00:00, next 00:00)`. -/
def daily_count_query (doctor_id day_lo day_hi : Nat) (a : Appointment) : Bool :=
  a.doctor_id == doctor_id && decide (day_lo ≤ a.slot_start) && decide (a.slot_start < day_hi)

/-- Number of appointments for `doctor_id` whose `slot_start` falls on the
same calendar day as `slot_start` (the cap counted at lines 184-192). -/
def daily_count (st : Store) (doctor_id slot_start : Nat) : Nat :=
  (st.appts.filter (daily_count_query doctor_id (slot_start / 1440 * 1440)
    (slot_start / 1440 * 1440 + 1440))).length

/-- The row `book_appointment` inserts (lines 198-205): next primary key,
request fields, status SCHEDULED, reschedule_count 0. -/
def mk_booked (st : Store) (appointment : AppointmentCreate) : Appointment :=
  { appointment_id := st.next_id
    patient_id := appointment.patient_id
    doctor_id := appointment.doctor_id
    department := appointment.department
    slot_start := appointment.slot_start
    slot_end := appointment.slot_end
    status := Status.SCHEDULED
    reschedule_count := 0 }

/-- `book_appointment` (src/app.py lines 115-227).  Returns the new store
and the appointment the endpoint responds with. -/
def book_appointment (st : Store) (appointment : AppointmentCreate)
    (idempotency_key : Option String) (patient_exists : Bool)
    (doctor_check : Except Err Unit) (now : Nat) : Except Err (Store × Appointment) :=
  match (if idempotency_key.isSome then st.appts.find? (idempotent_match appointment)
         else none) with
  | some existing => .ok (st, existing)
  | none =>
    if !patient_exists then
      .error { status_code := 404, detail := "Patient not found" }
    else match doctor_check with
    | .error e => .error e
    | .ok () =>
      match validate_slot appointment.slot_start appointment.slot_end now with
      | .error e => .error e
      | .ok () =>
        match st.appts.find? (doctor_overlap_query appointment.doctor_id
            appointment.slot_start appointment.slot_end) with
        | some _ => .error { status_code := 409, detail := "Doctor has a conflicting appointment" }
        | none =>
          match st.appts.find? (patient_overlap_query appointment.patient_id
              appointment.slot_start appointment.slot_end) with
          | some _ =>
            .error { status_code := 409, detail := "Patient has a conflicting appointment" }
          | none =>
            if 8 ≤ daily_count st appointment.doctor_id appointment.slot_start then
              .error { status_code := 400, detail := "Doctor has reached maximum daily appointments" }
            else
              .ok ({ appts := st.appts ++ [mk_booked st appointment],
                     next_id := st.next_id + 1 },
                   mk_booked st appointment)

/-- `db.query(Appointment).filter(Appointment.appointment_id == id).first()`. -/
def find_by_id (st : Store) (appointment_id : Nat) : Option Appointment :=
  st.appts.find? (fun a => a.appointment_id == appointment_id)

/-- In-place mutation of the row with the given primary key followed by
`db.commit()`: every row carrying that id is replaced by `updated`. -/
def update_by_id (st : Store) (appointment_id : Nat) (updated : Appointment) : Store :=
  { st with appts := st.appts.map (fun a =>
      if a.appointment_id == appointment_id then updated else a) }

/-- The in-place update `reschedule_appointment` performs on success
(lines 279-281): new slot, reschedule_count incremented. -/
def reschedule_update (appointment : Appointment) (new_slot_start new_slot_end : Nat) :
    Appointment :=
  { appointment with
    slot_start := new_slot_start
    slot_end := new_slot_end
    reschedule_count := appointment.reschedule_count + 1 }

/-- `reschedule_appointment` (src/app.py lines 229-298), `now` explicit. -/
def reschedule_appointment (st : Store) (appointment_id new_slot_start new_slot_end now : Nat) :
    Except Err (Store × Appointment) :=
  match find_by_id st appointment_id with
  | none => .error { status_code := 404, detail := "Appointment not found" }
  | some appointment =>
    if appointment.status ≠ Status.SCHEDULED then
      .error { status_code := 400,
               detail := "Cannot reschedule " ++ statusString appointment.status ++ " appointment" }
    else if MAX_RESCHEDULES ≤ appointment.reschedule_count then
      .error { status_code := 400, detail := "Maximum 2 reschedules allowed" }
    else if appointment.slot_start ≤ now + RESCHEDULE_CUTOFF_HOURS * 60 then
      .error { status_code := 400, detail := "Cannot reschedule within 1 hour of appointment" }
    else
      match validate_slot new_slot_start new_slot_end now with
      | .error e => .error e
      | .ok () =>
        match st.appts.find? (reschedule_overlap_query appointment.doctor_id appointment_id
            new_slot_start new_slot_end) with
        | some _ =>
          .error { status_code := 409, detail := "Doctor has a conflicting appointment at this time" }
        | none =>
          .ok (update_by_id st appointment_id
                 (reschedule_update appointment new_slot_start new_slot_end),
               reschedule_update appointment new_slot_start new_slot_end)

/-- The refund tier `cancel_appointment` classifies (lines 332-342). -/
inductive RefundTier where
  | fullRefund
  | halfFee
  | noShowFee
  deriving DecidableEq, Repr

/-- `appointment.status = s` followed by `db.commit()`, on one row. -/
def set_status (appointment : Appointment) (s : Status) : Appointment :=
  { appointment with status := s }

/-- The tier classification of lines 332-342.  `hours_until_slot > 2` is
`now + 120 < slot_start` and `hours_until_slot > 0` is `now < slot_start`
at minute granularity. -/
def refund_tier (slot_start now : Nat) : RefundTier :=
  if now + 2 * 60 < slot_start then .fullRefund
  else if now < slot_start then .halfFee
  else .noShowFee

/-- `cancel_appointment` (src/app.py lines 300-349), `now` explicit.  The
billing branch only classifies the tier; no charge is executed, so the tier
is returned alongside the response. -/
def cancel_appointment (st : Store) (appointment_id now : Nat) :
    Except Err (Store × Appointment × RefundTier) :=
  match find_by_id st appointment_id with
  | none => .error { status_code := 404, detail := "Appointment not found" }
  | some appointment =>
    if appointment.status ≠ Status.SCHEDULED then
      .error { status_code := 400, detail := "Only scheduled appointments can be cancelled" }
    else
      .ok (update_by_id st appointment_id (set_status appointment Status.CANCELLED),
           set_status appointment Status.CANCELLED,
           refund_tier appointment.slot_start now)

/-- `complete_appointment` (src/app.py lines 351-395).  The billing call it
triggers does not touch the store. -/
def complete_appointment (st : Store) (appointment_id : Nat) :
    Except Err (Store × Appointment) :=
  match find_by_id st appointment_id with
  | none => .error { status_code := 404, detail := "Appointment not found" }
  | some appointment =>
    if appointment.status ≠ Status.SCHEDULED then
      .error { status_code := 400, detail := "Only scheduled appointments can be completed" }
    else
      .ok (update_by_id st appointment_id (set_status appointment Status.COMPLETED),
           set_status appointment Status.COMPLETED)

/-- `mark_no_show` (src/app.py lines 397-436).  Note: no guard on the
current status — any found appointment is set to NO_SHOW. -/
def mark_no_show (st : Store) (appointment_id : Nat) : Except Err (Store × Appointment) :=
  match find_by_id st appointment_id with
  | none => .error { status_code := 404, detail := "Appointment not found" }
  | some appointment =>
    .ok (update_by_id st appointment_id (set_status appointment Status.NO_SHOW),
         set_status appointment Status.NO_SHOW)

/-- Insert into a list kept in descending `slot_start` order. -/
def insert_desc (a : Appointment) : List Appointment → List Appointment
  | [] => [a]
  | b :: rest => if b.slot_start < a.slot_start then a :: b :: rest else b :: insert_desc a rest

/-- `order_by(Appointment.slot_start.desc())` as an insertion sort. -/
def order_by_slot_start_desc (l : List Appointment) : List Appointment :=
  l.foldr insert_desc []

/-- `get_appointments` (src/app.py lines 438-463).  Each filter is applied
only when its value is truthy in Python: a present `0` (or empty string for
`status`) leaves the query unfiltered, exactly like an absent value. -/
def get_appointments (st : Store) (skip limit : Nat)
    (patient_id doctor_id : Option Nat) (status : Option String) : List Appointment :=
  let query := st.appts
  let query := match patient_id with
    | some p => if p ≠ 0 then query.filter (fun a => a.patient_id == p) else query
    | none => query
  let query := match doctor_id with
    | some d => if d ≠ 0 then query.filter (fun a => a.doctor_id == d) else query
    | none => query
  let query := match status with
    | some s => if s ≠ "" then query.filter (fun a => statusString a.status == s) else query
    | none => query
  ((order_by_slot_start_desc query).drop skip).take limit

/-- One invocation of a mutating endpoint, with the external inputs
(collaborator outcomes, wall-clock time) it depends on. -/
inductive Op where
  | book (req : AppointmentCreate) (idempotency_key : Option String)
      (patient_exists : Bool) (doctor_check : Except Err Unit) (now : Nat)
  | reschedule (appointment_id new_slot_start new_slot_end now : Nat)
  | cancel (appointment_id now : Nat)
  | complete (appointment_id : Nat)
  | noshow (appointment_id : Nat)

/-- The store after one endpoint invocation: an error response commits
nothing, a success commits the returned store. -/
def applyOp (st : Store) : Op → Store
  | .book req key pe dc now =>
    match book_appointment st req key pe dc now with
    | .ok (st', _) => st'
    | .error _ => st
  | .reschedule id ns ne now =>
    match reschedule_appointment st id ns ne now with
    | .ok (st', _) => st'
    | .error _ => st
  | .cancel id now =>
    match cancel_appointment st id now with
    | .ok (st', _, _) => st'
    | .error _ => st
  | .complete id =>
    match complete_appointment st id with
    | .ok (st', _) => st'
    | .error _ => st
  | .noshow id =>
    match mark_no_show st id with
    | .ok (st', _) => st'
    | .error _ => st

/-- The store produced by a sequence of endpoint invocations on an
initially empty database. -/
def runOps (ops : List Op) : Store := ops.foldl applyOp emptyStore

/-- Reachability: some sequence of operations produces this store. -/
def Reachable (st : Store) : Prop := ∃ ops : List Op, runOps ops = st

/-- Half-open interval overlap of two appointments' slots. -/
def overlaps (a b : Appointment) : Prop :=
  a.slot_start < b.slot_end ∧ b.slot_start < a.slot_end

/-- Per-doctor non-overlap over statuses {SCHEDULED, COMPLETED} — the
invariant the spec states. -/
def doctor_active_no_overlap (st : Store) : Prop :=
  st.appts.Pairwise (fun a b =>
    a.doctor_id = b.doctor_id →
    (a.status = Status.SCHEDULED ∨ a.status = Status.COMPLETED) →
    (b.status = Status.SCHEDULED ∨ b.status = Status.COMPLETED) →
      ¬ overlaps a b)

/-- Two appointments agreeing on `key` and both SCHEDULED never overlap. -/
def no_overlap_rel (key : Appointment → Nat) (a b : Appointment) : Prop :=
  key a = key b → a.status = Status.SCHEDULED → b.status = Status.SCHEDULED → ¬ overlaps a b

/-- Per-doctor non-overlap restricted to SCHEDULED appointments. -/
def doctor_sched_no_overlap (st : Store) : Prop :=
  st.appts.Pairwise (no_overlap_rel (fun a => a.doctor_id))

/-- Per-patient non-overlap of SCHEDULED appointments. -/
def patient_sched_no_overlap (st : Store) : Prop :=
  st.appts.Pairwise (no_overlap_rel (fun a => a.patient_id))

/-- Primary keys are below `next_id` and pairwise distinct. -/
def ids_ok (st : Store) : Prop :=
  (∀ a ∈ st.appts, a.appointment_id < st.next_id) ∧
  st.appts.Pairwise (fun a b => a.appointment_id ≠ b.appointment_id)

/-- Every stored reschedule_count is within the cap. -/
def counts_ok (st : Store) : Prop :=
  ∀ a ∈ st.appts, a.reschedule_count ≤ MAX_RESCHEDULES

/-! ### Shape lemmas: what each operation's success case commits -/

lemma find_by_id_mem {st : Store} {i : Nat} {t : Appointment}
    (h : find_by_id st i = some t) : t ∈ st.appts ∧ t.appointment_id = i := by
  unfold find_by_id at h
  refine ⟨List.mem_of_find?_eq_some h, ?_⟩
  simpa using List.find?_some h

lemma book_ok_cases {st : Store} {req : AppointmentCreate} {key : Option String}
    {pe : Bool} {dc : Except Err Unit} {now : Nat} {st' : Store} {a : Appointment}
    (h : book_appointment st req key pe dc now = .ok (st', a)) :
    (key.isSome = true ∧ st' = st ∧ st.appts.find? (idempotent_match req) = some a) ∨
    (st' = { appts := st.appts ++ [mk_booked st req], next_id := st.next_id + 1 } ∧
     a = mk_booked st req ∧
     st.appts.find? (doctor_overlap_query req.doctor_id req.slot_start req.slot_end) = none ∧
     st.appts.find? (patient_overlap_query req.patient_id req.slot_start req.slot_end) = none ∧
     daily_count st req.doctor_id req.slot_start < 8) := by
  unfold book_appointment at h
  split at h
  case _ x hx =>
    simp only [Except.ok.injEq, Prod.mk.injEq] at h
    obtain ⟨rfl, rfl⟩ := h
    left
    split at hx
    case _ hk => exact ⟨hk, rfl, hx⟩
    case _ => exact Option.noConfusion hx
  case _ hx =>
    split at h
    · exact Except.noConfusion h
    split at h
    · exact Except.noConfusion h
    split at h
    · exact Except.noConfusion h
    split at h
    · exact Except.noConfusion h
    case _ hdoc =>
    split at h
    · exact Except.noConfusion h
    case _ hpat =>
    split at h
    · exact Except.noConfusion h
    case _ hcap =>
    simp only [Except.ok.injEq, Prod.mk.injEq] at h
    obtain ⟨rfl, rfl⟩ := h
    right
    exact ⟨rfl, rfl, hdoc, hpat, Nat.lt_of_not_le hcap⟩

lemma reschedule_ok_cases {st : Store} {i ns ne now : Nat} {st' : Store} {a : Appointment}
    (h : reschedule_appointment st i ns ne now = .ok (st', a)) :
    ∃ t, find_by_id st i = some t ∧ t.status = Status.SCHEDULED ∧
      t.reschedule_count < MAX_RESCHEDULES ∧
      a = reschedule_update t ns ne ∧ st' = update_by_id st i a ∧
      st.appts.find? (reschedule_overlap_query t.doctor_id i ns ne) = none := by
  unfold reschedule_appointment at h
  split at h
  · exact Except.noConfusion h
  case _ t hfind =>
  split at h
  · exact Except.noConfusion h
  case _ hstat =>
  split at h
  · exact Except.noConfusion h
  case _ hcnt =>
  split at h
  · exact Except.noConfusion h
  split at h
  · exact Except.noConfusion h
  split at h
  · exact Except.noConfusion h
  case _ hnone =>
  simp only [Except.ok.injEq, Prod.mk.injEq] at h
  obtain ⟨rfl, rfl⟩ := h
  exact ⟨t, hfind, not_ne_iff.mp hstat, Nat.lt_of_not_le hcnt, rfl, rfl, hnone⟩

lemma cancel_ok_cases {st : Store} {i now : Nat} {st' : Store} {a : Appointment}
    {tier : RefundTier} (h : cancel_appointment st i now = .ok (st', a, tier)) :
    ∃ t, find_by_id st i = some t ∧ t.status = Status.SCHEDULED ∧
      a = set_status t Status.CANCELLED ∧ st' = update_by_id st i a ∧
      tier = refund_tier t.slot_start now := by
  unfold cancel_appointment at h
  split at h
  · exact Except.noConfusion h
  case _ t hfind =>
  split at h
  · exact Except.noConfusion h
  case _ hstat =>
  simp only [Except.ok.injEq, Prod.mk.injEq] at h
  obtain ⟨rfl, rfl, rfl⟩ := h
  exact ⟨t, hfind, not_ne_iff.mp hstat, rfl, rfl, rfl⟩

lemma complete_ok_cases {st : Store} {i : Nat} {st' : Store} {a : Appointment}
    (h : complete_appointment st i = .ok (st', a)) :
    ∃ t, find_by_id st i = some t ∧ t.status = Status.SCHEDULED ∧
      a = set_status t Status.COMPLETED ∧ st' = update_by_id st i a := by
  unfold complete_appointment at h
  split at h
  · exact Except.noConfusion h
  case _ t hfind =>
  split at h
  · exact Except.noConfusion h
  case _ hstat =>
  simp only [Except.ok.injEq, Prod.mk.injEq] at h
  obtain ⟨rfl, rfl⟩ := h
  exact ⟨t, hfind, not_ne_iff.mp hstat, rfl, rfl⟩

lemma noshow_ok_cases {st : Store} {i : Nat} {st' : Store} {a : Appointment}
    (h : mark_no_show st i = .ok (st', a)) :
    ∃ t, find_by_id st i = some t ∧
      a = set_status t Status.NO_SHOW ∧ st' = update_by_id st i a := by
  unfold mark_no_show at h
  split at h
  · exact Except.noConfusion h
  case _ t hfind =>
  simp only [Except.ok.injEq, Prod.mk.injEq] at h
  obtain ⟨rfl, rfl⟩ := h
  exact ⟨t, hfind, rfl, rfl⟩

/-! ### Preservation of the store invariants by each operation -/

lemma update_fun_id {i : Nat} {u : Appointment} (hu : u.appointment_id = i)
    (a : Appointment) :
    ((fun a => if a.appointment_id == i then u else a) a).appointment_id =
      a.appointment_id := by
  by_cases hc : a.appointment_id = i
  · simp [hc, hu]
  · simp [hc]

lemma ids_ok_update {st : Store} {i : Nat} {u : Appointment}
    (hst : ids_ok st) (hu : u.appointment_id = i) : ids_ok (update_by_id st i u) := by
  obtain ⟨hbound, hnodup⟩ := hst
  constructor
  · intro a ha
    unfold update_by_id at ha
    simp only [List.mem_map] at ha
    obtain ⟨x, hx, rfl⟩ := ha
    rw [update_fun_id hu]
    exact hbound x hx
  · unfold update_by_id
    rw [List.pairwise_map]
    exact hnodup.imp (fun {a b} hab => by rw [update_fun_id hu, update_fun_id hu]; exact hab)

lemma ids_ok_book {st : Store} {req : AppointmentCreate} (hst : ids_ok st) :
    ids_ok { appts := st.appts ++ [mk_booked st req], next_id := st.next_id + 1 } := by
  obtain ⟨hbound, hnodup⟩ := hst
  constructor
  · intro a ha
    rcases List.mem_append.mp ha with hmem | hmem
    · exact Nat.lt_succ_of_lt (hbound a hmem)
    · simp only [List.mem_singleton] at hmem
      subst hmem
      exact Nat.lt_succ_self _
  · rw [List.pairwise_append]
    refine ⟨hnodup, by simp, ?_⟩
    intro a ha b hb
    simp only [List.mem_singleton] at hb
    subst hb
    exact Nat.ne_of_lt (hbound a ha)

lemma counts_ok_update {st : Store} {i : Nat} {u : Appointment}
    (hst : counts_ok st) (hcnt : u.reschedule_count ≤ MAX_RESCHEDULES) :
    counts_ok (update_by_id st i u) := by
  intro a ha
  unfold update_by_id at ha
  simp only [List.mem_map] at ha
  obtain ⟨x, hx, rfl⟩ := ha
  by_cases hc : x.appointment_id = i
  · simpa [hc] using hcnt
  · simpa [hc] using hst x hx

lemma counts_ok_book {st : Store} {req : AppointmentCreate} (hst : counts_ok st) :
    counts_ok { appts := st.appts ++ [mk_booked st req], next_id := st.next_id + 1 } := by
  intro a ha
  rcases List.mem_append.mp ha with hmem | hmem
  · exact hst a hmem
  · simp only [List.mem_singleton] at hmem
    subst hmem
    simp [mk_booked]

lemma no_overlap_rel_set_status {key : Appointment → Nat} {l : List Appointment}
    {i : Nat} {t : Appointment} {s : Status} (hs : s ≠ Status.SCHEDULED)
    (hp : l.Pairwise (no_overlap_rel key)) :
    (l.map (fun a => if a.appointment_id == i then set_status t s else a)).Pairwise
      (no_overlap_rel key) := by
  rw [List.pairwise_map]
  refine hp.imp (fun {a b} hab => ?_)
  intro hkey hsa hsb
  by_cases hca : a.appointment_id = i
  · simp only [hca, beq_self_eq_true, if_pos, set_status] at hsa
    exact absurd hsa hs
  · by_cases hcb : b.appointment_id = i
    · simp only [hcb, beq_self_eq_true, if_pos, set_status] at hsb
      exact absurd hsb hs
    · simp only [beq_iff_eq, hca, hcb, if_neg, if_false] at hkey hsa hsb ⊢
      exact hab hkey hsa hsb

lemma doctor_sched_book {st : Store} {req : AppointmentCreate}
    (hp : doctor_sched_no_overlap st)
    (hdoc : st.appts.find? (doctor_overlap_query req.doctor_id req.slot_start
      req.slot_end) = none) :
    doctor_sched_no_overlap
      { appts := st.appts ++ [mk_booked st req], next_id := st.next_id + 1 } := by
  unfold doctor_sched_no_overlap at *
  rw [List.pairwise_append]
  refine ⟨hp, by simp, ?_⟩
  intro a ha b hb
  simp only [List.mem_singleton] at hb
  subst hb
  intro hkey hsa _
  have hq := List.find?_eq_none.mp hdoc a ha
  simp only [doctor_overlap_query, mk_booked, Bool.and_eq_true, Bool.or_eq_true,
    beq_iff_eq, decide_eq_true_eq, gt_iff_lt] at hq hkey
  simp only [overlaps, mk_booked]
  tauto

lemma patient_sched_book {st : Store} {req : AppointmentCreate}
    (hp : patient_sched_no_overlap st)
    (hpat : st.appts.find? (patient_overlap_query req.patient_id req.slot_start
      req.slot_end) = none) :
    patient_sched_no_overlap
      { appts := st.appts ++ [mk_booked st req], next_id := st.next_id + 1 } := by
  unfold patient_sched_no_overlap at *
  rw [List.pairwise_append]
  refine ⟨hp, by simp, ?_⟩
  intro a ha b hb
  simp only [List.mem_singleton] at hb
  subst hb
  intro hkey hsa _
  have hq := List.find?_eq_none.mp hpat a ha
  simp only [patient_overlap_query, mk_booked, Bool.and_eq_true,
    beq_iff_eq, decide_eq_true_eq, gt_iff_lt] at hq hkey
  simp only [overlaps, mk_booked]
  tauto

lemma doctor_sched_reschedule {st : Store} {i ns ne : Nat} {t : Appointment}
    (hids : ids_ok st) (hp : doctor_sched_no_overlap st)
    (hnone : st.appts.find? (reschedule_overlap_query t.doctor_id i ns ne) = none) :
    doctor_sched_no_overlap (update_by_id st i (reschedule_update t ns ne)) := by
  unfold doctor_sched_no_overlap update_by_id at *
  rw [List.pairwise_map]
  refine List.Pairwise.imp_of_mem ?_ (hp.and hids.2)
  intro a b ha hb hab
  obtain ⟨hrel, hne⟩ := hab
  intro hkey hsa hsb
  by_cases hca : a.appointment_id = i
  · have hcb : ¬ b.appointment_id = i := fun hh => hne (by rw [hca, hh])
    simp only [beq_iff_eq, hca, hcb, if_pos, if_neg, if_true, if_false] at hkey hsa hsb ⊢
    have hq := List.find?_eq_none.mp hnone b hb
    simp only [reschedule_overlap_query, Bool.and_eq_true, beq_iff_eq, bne_iff_ne,
      decide_eq_true_eq, gt_iff_lt] at hq
    simp only [reschedule_update] at hkey ⊢
    simp only [overlaps]
    have hkey' := hkey.symm
    tauto
  · by_cases hcb : b.appointment_id = i
    · simp only [beq_iff_eq, hca, hcb, if_pos, if_neg, if_true, if_false] at hkey hsa hsb ⊢
      have hq := List.find?_eq_none.mp hnone a ha
      simp only [reschedule_overlap_query, Bool.and_eq_true, beq_iff_eq, bne_iff_ne,
        decide_eq_true_eq, gt_iff_lt] at hq
      simp only [reschedule_update] at hkey ⊢
      simp only [overlaps]
      tauto
    · simp only [beq_iff_eq, hca, hcb, if_neg, if_false] at hkey hsa hsb ⊢
      exact hrel hkey hsa hsb

lemma doctor_sched_set_status {st : Store} {i : Nat} {t : Appointment} {s : Status}
    (hs : s ≠ Status.SCHEDULED) (hp : doctor_sched_no_overlap st) :
    doctor_sched_no_overlap (update_by_id st i (set_status t s)) :=
  no_overlap_rel_set_status hs hp

lemma patient_sched_set_status {st : Store} {i : Nat} {t : Appointment} {s : Status}
    (hs : s ≠ Status.SCHEDULED) (hp : patient_sched_no_overlap st) :
    patient_sched_no_overlap (update_by_id st i (set_status t s)) :=
  no_overlap_rel_set_status hs hp

/-! ### The inductive invariant over reachable stores -/

/-- The invariant every endpoint preserves: distinct primary keys below
`next_id`, per-doctor SCHEDULED non-overlap, reschedule_count within cap. -/
def store_inv (st : Store) : Prop :=
  ids_ok st ∧ doctor_sched_no_overlap st ∧ counts_ok st

lemma store_inv_empty : store_inv emptyStore :=
  ⟨⟨by simp [emptyStore], by simp [emptyStore]⟩,
   by simp [doctor_sched_no_overlap, emptyStore],
   by simp [counts_ok, emptyStore]⟩

lemma store_inv_applyOp {st : Store} (h : store_inv st) (op : Op) :
    store_inv (applyOp st op) := by
  obtain ⟨hids, hdoc, hcnt⟩ := h
  cases op with
  | book req key pe dc now =>
    simp only [applyOp]
    split
    case _ st' a heq =>
      rcases book_ok_cases heq with ⟨_, rfl, _⟩ | ⟨rfl, rfl, hd, hp, _⟩
      · exact ⟨hids, hdoc, hcnt⟩
      · exact ⟨ids_ok_book hids, doctor_sched_book hdoc hd, counts_ok_book hcnt⟩
    case _ => exact ⟨hids, hdoc, hcnt⟩
  | reschedule i ns ne now =>
    simp only [applyOp]
    split
    case _ st' a heq =>
      obtain ⟨t, hfind, hstat, hlt, rfl, rfl, hnone⟩ := reschedule_ok_cases heq
      refine ⟨ids_ok_update hids ?_, doctor_sched_reschedule hids hdoc hnone,
        counts_ok_update hcnt ?_⟩
      · simpa [reschedule_update] using (find_by_id_mem hfind).2
      · simpa [reschedule_update] using hlt
    case _ => exact ⟨hids, hdoc, hcnt⟩
  | cancel i now =>
    simp only [applyOp]
    split
    case _ st' a tier heq =>
      obtain ⟨t, hfind, hstat, rfl, rfl, rfl⟩ := cancel_ok_cases heq
      refine ⟨ids_ok_update hids ?_, doctor_sched_set_status (by decide) hdoc,
        counts_ok_update hcnt ?_⟩
      · simpa [set_status] using (find_by_id_mem hfind).2
      · simpa [set_status] using hcnt t (find_by_id_mem hfind).1
    case _ => exact ⟨hids, hdoc, hcnt⟩
  | complete i =>
    simp only [applyOp]
    split
    case _ st' a heq =>
      obtain ⟨t, hfind, hstat, rfl, rfl⟩ := complete_ok_cases heq
      refine ⟨ids_ok_update hids ?_, doctor_sched_set_status (by decide) hdoc,
        counts_ok_update hcnt ?_⟩
      · simpa [set_status] using (find_by_id_mem hfind).2
      · simpa [set_status] using hcnt t (find_by_id_mem hfind).1
    case _ => exact ⟨hids, hdoc, hcnt⟩
  | noshow i =>
    simp only [applyOp]
    split
    case _ st' a heq =>
      obtain ⟨t, hfind, rfl, rfl⟩ := noshow_ok_cases heq
      refine ⟨ids_ok_update hids ?_, doctor_sched_set_status (by decide) hdoc,
        counts_ok_update hcnt ?_⟩
      · simpa [set_status] using (find_by_id_mem hfind).2
      · simpa [set_status] using hcnt t (find_by_id_mem hfind).1
    case _ => exact ⟨hids, hdoc, hcnt⟩

lemma store_inv_foldl (ops : List Op) :
    ∀ st, store_inv st → store_inv (ops.foldl applyOp st) := by
  induction ops with
  | nil => exact fun st h => h
  | cons op rest ih => exact fun st h => ih _ (store_inv_applyOp h op)

lemma store_inv_reachable {st : Store} (h : Reachable st) : store_inv st := by
  obtain ⟨ops, rfl⟩ := h
  exact store_inv_foldl ops emptyStore store_inv_empty

/-- `true` exactly on reschedule invocations. -/
def Op.is_resched : Op → Bool
  | .reschedule _ _ _ _ => true
  | _ => false

/-- Reachability using every endpoint except reschedule. -/
def ReachableNoReschedule (st : Store) : Prop :=
  ∃ ops : List Op, (∀ op ∈ ops, op.is_resched = false) ∧ runOps ops = st

lemma patient_sched_applyOp {st : Store} {op : Op} (h : patient_sched_no_overlap st)
    (hop : op.is_resched = false) : patient_sched_no_overlap (applyOp st op) := by
  cases op with
  | book req key pe dc now =>
    simp only [applyOp]
    split
    case _ st' a heq =>
      rcases book_ok_cases heq with ⟨_, rfl, _⟩ | ⟨rfl, rfl, hd, hp, _⟩
      · exact h
      · exact patient_sched_book h hp
    case _ => exact h
  | reschedule i ns ne now => exact absurd hop (by simp [Op.is_resched])
  | cancel i now =>
    simp only [applyOp]
    split
    case _ st' a tier heq =>
      obtain ⟨t, hfind, hstat, rfl, rfl, rfl⟩ := cancel_ok_cases heq
      exact patient_sched_set_status (by decide) h
    case _ => exact h
  | complete i =>
    simp only [applyOp]
    split
    case _ st' a heq =>
      obtain ⟨t, hfind, hstat, rfl, rfl⟩ := complete_ok_cases heq
      exact patient_sched_set_status (by decide) h
    case _ => exact h
  | noshow i =>
    simp only [applyOp]
    split
    case _ st' a heq =>
      obtain ⟨t, hfind, rfl, rfl⟩ := noshow_ok_cases heq
      exact patient_sched_set_status (by decide) h
    case _ => exact h

lemma patient_sched_foldl (ops : List Op) :
    ∀ st, (∀ op ∈ ops, op.is_resched = false) → patient_sched_no_overlap st →
      patient_sched_no_overlap (ops.foldl applyOp st) := by
  induction ops with
  | nil => exact fun st _ h => h
  | cons op rest ih =>
    intro st hops h
    exact ih _ (fun o ho => hops o (List.mem_cons_of_mem _ ho))
      (patient_sched_applyOp h (hops op (List.mem_cons_self _ _)))

instance (a b : Appointment) : Decidable (overlaps a b) := by
  unfold overlaps; infer_instance

instance (key : Appointment → Nat) (a b : Appointment) :
    Decidable (no_overlap_rel key a b) := by
  unfold no_overlap_rel; infer_instance

instance (st : Store) : Decidable (doctor_active_no_overlap st) := by
  unfold doctor_active_no_overlap; infer_instance

instance (st : Store) : Decidable (doctor_sched_no_overlap st) := by
  unfold doctor_sched_no_overlap; infer_instance

instance (st : Store) : Decidable (patient_sched_no_overlap st) := by
  unfold patient_sched_no_overlap; infer_instance

/-! ### Concrete executions used by the claims -/

/-- Patient 1 books doctor 1 at 10:00-10:30 of day 0. -/
def req_p1_d1 : AppointmentCreate :=
  { patient_id := 1, doctor_id := 1, department := "cardio", slot_start := 600, slot_end := 630 }

/-- Patient 2 books doctor 1 at 11:00-11:30 of day 0. -/
def req_p2_d1 : AppointmentCreate :=
  { patient_id := 2, doctor_id := 1, department := "cardio", slot_start := 660, slot_end := 690 }

/-- Patient 1 books doctor 2 at 11:00-11:30 of day 0. -/
def req_p1_d2 : AppointmentCreate :=
  { patient_id := 1, doctor_id := 2, department := "derm", slot_start := 660, slot_end := 690 }

/-- A single booking (all collaborator checks pass, clock at day-0 midnight). -/
def w1_trace : List Op := [.book req_p1_d1 none true (.ok ()) 0]

/-- The row created by `w1_trace`. -/
def w1_row : Appointment := mk_booked emptyStore req_p1_d1

/-- Book doctor 1 (id 0), complete it, book doctor 1 again at a disjoint
slot (id 1), then reschedule id 1 onto the completed appointment's slot. -/
def c1_trace : List Op :=
  [.book req_p1_d1 none true (.ok ()) 0, .complete 0,
   .book req_p2_d1 none true (.ok ()) 0, .reschedule 1 600 630 0]

/-- Patient 1 books doctors 1 and 2 at disjoint slots, then reschedules the
doctor-2 appointment onto the doctor-1 slot. -/
def c2_trace : List Op :=
  [.book req_p1_d1 none true (.ok ()) 0, .book req_p1_d2 none true (.ok ()) 0,
   .reschedule 1 600 630 0]

/-! ### The claims -/

/-- C1, counterexample: a reachable store in which a SCHEDULED and a
COMPLETED appointment of the same doctor occupy the same slot.  Book doctor
1 at 10:00-10:30, complete it (no time guard), book doctor 1 at
11:00-11:30, then reschedule that appointment to 10:00-10:30: the
reschedule conflict check filters only on status SCHEDULED, so the
COMPLETED appointment is invisible to it and the claimed
{SCHEDULED, COMPLETED} invariant breaks. -/
theorem C1_active_overlap_reachable :
    Reachable (runOps c1_trace) ∧ ¬ doctor_active_no_overlap (runOps c1_trace) :=
  ⟨⟨c1_trace, rfl⟩, by decide⟩

/-- C1, amended: in every reachable store, no two SCHEDULED appointments of
the same doctor have overlapping half-open `[slot_start, slot_end)`
intervals; the invariant restricted to status SCHEDULED alone is preserved
by book, reschedule, cancel, complete and no-show. -/
theorem C1_sched_no_overlap_invariant (st : Store) (h : Reachable st) :
    doctor_sched_no_overlap st :=
  (store_inv_reachable h).2.1

/-- C1, witness: the amended invariant evaluated at the store reached by a
single booking. -/
theorem C1_sched_no_overlap_witness :
    Reachable (runOps w1_trace) ∧ doctor_sched_no_overlap (runOps w1_trace) :=
  ⟨⟨w1_trace, rfl⟩, C1_sched_no_overlap_invariant (runOps w1_trace) ⟨w1_trace, rfl⟩⟩

/-- C2, counterexample: a reachable store in which patient 1 holds two
SCHEDULED appointments in the same slot with different doctors: reschedule
performs no patient-overlap check on the new slot, so rescheduling the
doctor-2 appointment onto the doctor-1 slot breaks the patient invariant. -/
theorem C2_patient_overlap_reachable :
    Reachable (runOps c2_trace) ∧ ¬ patient_sched_no_overlap (runOps c2_trace) :=
  ⟨⟨c2_trace, rfl⟩, by decide⟩

/-- C2, amended: in every store reachable using book, cancel, complete and
no-show but no reschedule, no two SCHEDULED appointments of the same
patient overlap (book does check patient overlap; the other three only move
statuses away from SCHEDULED). -/
theorem C2_patient_no_overlap_no_reschedule (st : Store)
    (h : ReachableNoReschedule st) : patient_sched_no_overlap st := by
  obtain ⟨ops, hops, rfl⟩ := h
  refine patient_sched_foldl ops emptyStore hops ?_
  simp [patient_sched_no_overlap, emptyStore]

/-- C2, witness: the amended invariant evaluated at the store reached by a
single booking (a reschedule-free sequence). -/
theorem C2_patient_no_overlap_witness :
    ReachableNoReschedule (runOps w1_trace) ∧ patient_sched_no_overlap (runOps w1_trace) :=
  ⟨⟨w1_trace, by simp [w1_trace, Op.is_resched], rfl⟩,
   C2_patient_no_overlap_no_reschedule (runOps w1_trace)
     ⟨w1_trace, by simp [w1_trace, Op.is_resched], rfl⟩⟩

/-- The i-th of eight same-day bookings for doctor 2: patient i+1, slot
9:00+30i to 9:30+30i of day 0. -/
def c3_req (i : Nat) : AppointmentCreate :=
  { patient_id := i + 1, doctor_id := 2, department := "gp",
    slot_start := 540 + 30 * i, slot_end := 570 + 30 * i }

/-- Eight non-overlapping day-0 bookings for doctor 2; all succeed. -/
def c3_trace : List Op :=
  (List.range 8).map (fun i => .book (c3_req i) none true (.ok ()) 0)

/-- The ninth same-day booking request for doctor 2 (13:00-13:30). -/
def c3_req9 : AppointmentCreate := c3_req 8

/-- C3, counterexample: after the eight successful same-day bookings for
doctor 2, the ninth same-day booking fails with HTTP status 400 — the
source raises 400 for the daily cap (src/app.py line 195), not the claimed
ConflictError/409. -/
theorem C3_cap_error_is_400 :
    Reachable (runOps c3_trace) ∧
    daily_count (runOps c3_trace) 2 780 = 8 ∧
    book_appointment (runOps c3_trace) c3_req9 none true (.ok ()) 0 =
      .error { status_code := 400, detail := "Doctor has reached maximum daily appointments" } :=
  ⟨⟨c3_trace, rfl⟩, by decide, by rfl⟩

/-- C3, amended: a keyless booking for a doctor already holding at least 8
appointments (any status) whose slot_start falls on the requested calendar
day never succeeds, and the store is unchanged; when patient and doctor
verification, slot validation and both overlap checks pass, the failure is
the daily-cap error with HTTP status 400 (not 409). -/
theorem C3_daily_cap_rejects (st : Store) (req : AppointmentCreate) (pe : Bool)
    (dc : Except Err Unit) (now : Nat)
    (hcap : 8 ≤ daily_count st req.doctor_id req.slot_start) :
    (∀ st' a, book_appointment st req none pe dc now ≠ .ok (st', a)) ∧
    applyOp st (.book req none pe dc now) = st ∧
    (pe = true → dc = .ok () →
      validate_slot req.slot_start req.slot_end now = .ok () →
      st.appts.find? (doctor_overlap_query req.doctor_id req.slot_start req.slot_end) = none →
      st.appts.find? (patient_overlap_query req.patient_id req.slot_start req.slot_end) = none →
      book_appointment st req none pe dc now =
        .error { status_code := 400,
                 detail := "Doctor has reached maximum daily appointments" }) := by
  have hfail : ∀ st' a, book_appointment st req none pe dc now ≠ .ok (st', a) := by
    intro st' a h
    rcases book_ok_cases h with ⟨hk, _, _⟩ | ⟨_, _, _, _, hlt⟩
    · exact Option.noConfusion (Option.isSome_iff_exists.mp hk).choose_spec
    · exact Nat.not_le_of_lt hlt hcap
  refine ⟨hfail, ?_, ?_⟩
  · simp only [applyOp]
    split
    case _ st' a heq => exact absurd heq (hfail st' a)
    case _ => rfl
  · rintro rfl rfl hval hd hp
    unfold book_appointment
    simp [hval, hd, hp, hcap]

/-- C3, witness: the amended statement applied to the nine-booking
scenario: the cap hypothesis holds there and the store stays unchanged. -/
theorem C3_daily_cap_witness :
    8 ≤ daily_count (runOps c3_trace) c3_req9.doctor_id c3_req9.slot_start ∧
    applyOp (runOps c3_trace) (.book c3_req9 none true (.ok ()) 0) = runOps c3_trace :=
  ⟨by decide,
   (C3_daily_cap_rejects (runOps c3_trace) c3_req9 true (.ok ()) 0 (by decide)).2.1⟩

/-- Book doctor 1 at 10:00-10:30 (id 0), then reschedule it twice (to
11:00-11:30 and to 12:00-12:30); both succeed, leaving reschedule_count 2. -/
def c4_trace : List Op :=
  [.book req_p1_d1 none true (.ok ()) 0, .reschedule 0 660 690 0, .reschedule 0 720 750 0]

/-- The appointment row after `c4_trace`. -/
def c4_row : Appointment :=
  { appointment_id := 0, patient_id := 1, doctor_id := 1, department := "cardio",
    slot_start := 720, slot_end := 750, status := Status.SCHEDULED, reschedule_count := 2 }

/-- C4, counterexample: after two successful reschedules the third attempt
fails with HTTP status 400 (src/app.py line 251), not the claimed
ConflictError/409. -/
theorem C4_third_reschedule_is_400 :
    Reachable (runOps c4_trace) ∧
    find_by_id (runOps c4_trace) 0 = some c4_row ∧
    reschedule_appointment (runOps c4_trace) 0 780 810 0 =
      .error { status_code := 400, detail := "Maximum 2 reschedules allowed" } :=
  ⟨⟨c4_trace, rfl⟩, by rfl, by rfl⟩

/-- C4, amended: reschedule_count never exceeds 2 in any reachable store; a
reschedule of a SCHEDULED appointment whose count is already 2 fails with
HTTP 400 (not 409) and leaves the store unchanged; a successful reschedule
increments the count by exactly 1. -/
theorem C4_reschedule_cap (st : Store) :
    (Reachable st → ∀ a ∈ st.appts, a.reschedule_count ≤ 2) ∧
    (∀ i ns ne now t, find_by_id st i = some t → t.status = Status.SCHEDULED →
      2 ≤ t.reschedule_count →
      reschedule_appointment st i ns ne now =
        .error { status_code := 400, detail := "Maximum 2 reschedules allowed" } ∧
      applyOp st (.reschedule i ns ne now) = st) ∧
    (∀ i ns ne now st' a t, reschedule_appointment st i ns ne now = .ok (st', a) →
      find_by_id st i = some t → a.reschedule_count = t.reschedule_count + 1) := by
  refine ⟨fun h => (store_inv_reachable h).2.2, ?_, ?_⟩
  · intro i ns ne now t hfind hstat hcnt
    have herr : reschedule_appointment st i ns ne now =
        .error { status_code := 400, detail := "Maximum 2 reschedules allowed" } := by
      unfold reschedule_appointment
      simp [hfind, hstat, MAX_RESCHEDULES, hcnt]
    refine ⟨herr, ?_⟩
    simp only [applyOp]
    split
    case _ st' a heq => rw [herr] at heq; exact Except.noConfusion heq
    case _ => rfl
  · intro i ns ne now st' a t h hfind
    obtain ⟨t2, hfind2, _, _, rfl, _, _⟩ := reschedule_ok_cases h
    rw [hfind] at hfind2
    injection hfind2 with hh
    subst hh
    simp [reschedule_update]

/-- C4, witness: the amended statement applied to the two-reschedule
scenario: the third attempt returns the 400 error. -/
theorem C4_reschedule_cap_witness :
    reschedule_appointment (runOps c4_trace) 0 780 810 0 =
      .error { status_code := 400, detail := "Maximum 2 reschedules allowed" } :=
  ((C4_reschedule_cap (runOps c4_trace)).2.1 0 780 810 0 c4_row
    (by rfl) (by rfl) (by decide)).1

/-- Book doctor 1 at 10:00-10:30 (id 0), then cancel it at time 0. -/
def c5_trace : List Op := [.book req_p1_d1 none true (.ok ()) 0, .cancel 0 0]

/-- The cancelled row after `c5_trace`. -/
def c5_row : Appointment :=
  { appointment_id := 0, patient_id := 1, doctor_id := 1, department := "cardio",
    slot_start := 600, slot_end := 630, status := Status.CANCELLED, reschedule_count := 0 }

/-- C5, counterexample: after cancelling, the appointment is CANCELLED, yet
`mark_no_show` — which has no status guard — still succeeds and moves the
status to NO_SHOW, so CANCELLED is not terminal as claimed. -/
theorem C5_cancelled_then_noshow :
    Reachable (runOps c5_trace) ∧
    find_by_id (runOps c5_trace) 0 = some c5_row ∧
    (mark_no_show (runOps c5_trace) 0).map (fun r => r.2.status) = .ok Status.NO_SHOW :=
  ⟨⟨c5_trace, rfl⟩, by rfl, by rfl⟩

/-- C5, amended: cancelling a non-SCHEDULED appointment fails with the 400
validation error and leaves the store unchanged; a successful cancel sets
the status to CANCELLED; once CANCELLED, reschedule, cancel and complete
all fail, but no-show succeeds and sets the status to NO_SHOW. -/
theorem C5_cancel_transitions (st : Store) (i : Nat) (t : Appointment)
    (hfind : find_by_id st i = some t) :
    (t.status ≠ Status.SCHEDULED →
      (∀ now, cancel_appointment st i now =
        .error { status_code := 400,
                 detail := "Only scheduled appointments can be cancelled" }) ∧
      (∀ now, applyOp st (.cancel i now) = st)) ∧
    (∀ now st' a tier, cancel_appointment st i now = .ok (st', a, tier) →
      a.status = Status.CANCELLED) ∧
    (t.status = Status.CANCELLED →
      (∀ ns ne now st' a, reschedule_appointment st i ns ne now ≠ .ok (st', a)) ∧
      (∀ now st' a tier, cancel_appointment st i now ≠ .ok (st', a, tier)) ∧
      (∀ st' a, complete_appointment st i ≠ .ok (st', a)) ∧
      mark_no_show st i =
        .ok (update_by_id st i (set_status t Status.NO_SHOW),
             set_status t Status.NO_SHOW)) := by
  refine ⟨?_, ?_, ?_⟩
  · intro hstat
    have herr : ∀ now, cancel_appointment st i now =
        .error { status_code := 400,
                 detail := "Only scheduled appointments can be cancelled" } := by
      intro now
      unfold cancel_appointment
      simp [hfind, hstat]
    refine ⟨herr, ?_⟩
    intro now
    simp only [applyOp]
    split
    case _ st' a tier heq => rw [herr now] at heq; exact Except.noConfusion heq
    case _ => rfl
  · intro now st' a tier h
    obtain ⟨t2, _, _, rfl, _, _⟩ := cancel_ok_cases h
    simp [set_status]
  · intro hstat
    refine ⟨?_, ?_, ?_, ?_⟩
    · intro ns ne now st' a h
      obtain ⟨t2, hfind2, hsched, _, _, _⟩ := reschedule_ok_cases h
      rw [hfind] at hfind2
      injection hfind2 with hh
      rw [← hh, hstat] at hsched
      exact Status.noConfusion hsched
    · intro now st' a tier h
      obtain ⟨t2, hfind2, hsched, _, _, _⟩ := cancel_ok_cases h
      rw [hfind] at hfind2
      injection hfind2 with hh
      rw [← hh, hstat] at hsched
      exact Status.noConfusion hsched
    · intro st' a h
      obtain ⟨t2, hfind2, hsched, _, _⟩ := complete_ok_cases h
      rw [hfind] at hfind2
      injection hfind2 with hh
      rw [← hh, hstat] at hsched
      exact Status.noConfusion hsched
    · unfold mark_no_show
      simp [hfind]

/-- C5, witness: the amended statement applied to the cancelled appointment
of the concrete trace: no-show still flips its status. -/
theorem C5_cancel_witness :
    mark_no_show (runOps c5_trace) 0 =
      .ok (update_by_id (runOps c5_trace) 0 (set_status c5_row Status.NO_SHOW),
           set_status c5_row Status.NO_SHOW) :=
  (((C5_cancel_transitions (runOps c5_trace) 0 c5_row (by rfl)).2.2) (by rfl)).2.2.2

/-- C6: slot validation succeeds exactly when the start is at least 2 hours
after `now`, the start's hour-of-day lies in `[9, 18)`, and the duration is
exactly 30 minutes — equivalently it fails exactly when one of the three
spec conditions holds.  `validate_slot` takes no store and returns only the
verdict, so validation cannot affect the store. -/
theorem C6_validate_slot_iff (slot_start slot_end now : Nat) :
    validate_slot slot_start slot_end now = .ok () ↔
      ¬ slot_start < now + 2 * 60 ∧
      (9 ≤ slot_start / 60 % 24 ∧ slot_start / 60 % 24 < 18) ∧
      slot_end = slot_start + 30 := by
  unfold validate_slot MIN_LEAD_TIME_HOURS SLOT_DURATION_MINUTES
  split
  case _ h => simp [h]
  case _ h1 =>
    split
    case _ h2 =>
      refine iff_of_false (by simp) ?_
      rintro ⟨_, ⟨h9, h18⟩, _⟩
      rcases h2 with h | h <;> omega
    case _ h2 =>
      split
      case _ h3 =>
        refine iff_of_false (by simp) ?_
        rintro ⟨_, _, h30⟩
        exact h3 h30
      case _ h3 =>
        refine iff_of_true rfl ⟨h1, ⟨?_, ?_⟩, not_ne_iff.mp h3⟩ <;> omega

/-- Patient 1 books doctor 5 at 10:00-10:30 of day 0. -/
def c7_req_a : AppointmentCreate :=
  { patient_id := 1, doctor_id := 5, department := "gp", slot_start := 600, slot_end := 630 }

/-- Patient 2 requests doctor 5 at 10:15-10:45 of day 0. -/
def c7_req_b : AppointmentCreate :=
  { patient_id := 2, doctor_id := 5, department := "gp", slot_start := 615, slot_end := 645 }

/-- Patient 3 requests doctor 5 at 10:30-11:00 of day 0. -/
def c7_req_c : AppointmentCreate :=
  { patient_id := 3, doctor_id := 5, department := "gp", slot_start := 630, slot_end := 660 }

/-- The store after booking doctor 5 at 10:00-10:30. -/
def c7_store1 : Store := runOps [.book c7_req_a none true (.ok ()) 0]

/-- C7: the doctor-conflict filter is exactly the half-open-overlap
predicate `existing.slot_start < slot_end ∧ existing.slot_end > slot_start`
(together with the doctor match and status in {SCHEDULED, COMPLETED}), so
touching endpoints do not conflict; concretely, after booking doctor 5 at
10:00-10:30, booking 10:15-10:45 fails with 409 while booking the touching
slot 10:30-11:00 succeeds. -/
theorem C7_half_open_conflict :
    (∀ (d s e : Nat) (a : Appointment),
      doctor_overlap_query d s e a = true ↔
        a.doctor_id = d ∧ (a.status = Status.SCHEDULED ∨ a.status = Status.COMPLETED) ∧
          a.slot_start < e ∧ s < a.slot_end) ∧
    book_appointment emptyStore c7_req_a none true (.ok ()) 0 =
      .ok (c7_store1, mk_booked emptyStore c7_req_a) ∧
    book_appointment c7_store1 c7_req_b none true (.ok ()) 0 =
      .error { status_code := 409, detail := "Doctor has a conflicting appointment" } ∧
    (∃ st2 r2, book_appointment c7_store1 c7_req_c none true (.ok ()) 0 = .ok (st2, r2)) := by
  refine ⟨?_, rfl, rfl, ⟨_, _, rfl⟩⟩
  intro d s e a
  unfold doctor_overlap_query
  simp only [Bool.and_eq_true, Bool.or_eq_true, beq_iff_eq, decide_eq_true_eq, gt_iff_lt]
  tauto

/-- C8: cancelling a SCHEDULED appointment succeeds, sets the status to
CANCELLED in every tier, and classifies the refund tier as a three-way
partition of the time remaining until slot_start: full refund iff strictly
more than 2 hours remain, 50% fee iff the remainder is in (0, 2] hours,
no-show fee iff it is ≤ 0.  Only the status field changes; the embedding
returns the tier because the source merely computes it (no charge). -/
theorem C8_cancel_refund_partition (st : Store) (i now : Nat) (t : Appointment)
    (hfind : find_by_id st i = some t) (hstat : t.status = Status.SCHEDULED) :
    cancel_appointment st i now =
      .ok (update_by_id st i (set_status t Status.CANCELLED),
           set_status t Status.CANCELLED, refund_tier t.slot_start now) ∧
    (set_status t Status.CANCELLED).status = Status.CANCELLED ∧
    (refund_tier t.slot_start now = .fullRefund ↔ now + 120 < t.slot_start) ∧
    (refund_tier t.slot_start now = .halfFee ↔
      now < t.slot_start ∧ t.slot_start ≤ now + 120) ∧
    (refund_tier t.slot_start now = .noShowFee ↔ t.slot_start ≤ now) := by
  refine ⟨?_, rfl, ?_, ?_, ?_⟩
  · unfold cancel_appointment
    simp [hfind, hstat]
  all_goals unfold refund_tier
  all_goals split_ifs with h1 h2 <;> simp <;> omega

/-- C8, witness: cancelling the single booked appointment at time 0
(10 hours before its slot) yields the full-refund classification. -/
theorem C8_cancel_refund_witness :
    cancel_appointment (runOps w1_trace) 0 0 =
      .ok (update_by_id (runOps w1_trace) 0 (set_status w1_row Status.CANCELLED),
           set_status w1_row Status.CANCELLED, refund_tier w1_row.slot_start 0) ∧
    refund_tier w1_row.slot_start 0 = RefundTier.fullRefund :=
  ⟨(C8_cancel_refund_partition (runOps w1_trace) 0 0 w1_row (by rfl) (by rfl)).1,
   by decide⟩

/-- C9: when an idempotency key is supplied and the store already holds an
appointment matching `(patient_id, doctor_id, slot_start)` with status
SCHEDULED, booking short-circuits before any verification or mutation: it
returns the first such record with the store unchanged, whatever the
collaborator outcomes and clock; since the store is returned unchanged,
repeating the same keyed request returns the same record again. -/
theorem C9_idempotent_booking (st : Store) (req : AppointmentCreate) (k : String)
    (ex : Appointment) (hfind : st.appts.find? (idempotent_match req) = some ex) :
    ∀ pe dc now, book_appointment st req (some k) pe dc now = .ok (st, ex) := by
  intro pe dc now
  unfold book_appointment
  simp [hfind]

/-- C9, witness: rebooking the already-booked slot with an idempotency key
returns the existing record and the unchanged store, twice over. -/
theorem C9_idempotent_witness :
    book_appointment (runOps w1_trace) req_p1_d1 (some "key-1") true (.ok ()) 0 =
      .ok (runOps w1_trace, w1_row) ∧
    book_appointment (runOps w1_trace) req_p1_d1 (some "key-1") false (.error ⟨404, "x"⟩) 99 =
      .ok (runOps w1_trace, w1_row) :=
  ⟨C9_idempotent_booking (runOps w1_trace) req_p1_d1 "key-1" w1_row (by rfl) true (.ok ()) 0,
   C9_idempotent_booking (runOps w1_trace) req_p1_d1 "key-1" w1_row (by rfl) false
     (.error ⟨404, "x"⟩) 99⟩

/-- C10: in the list endpoint the filters are applied only when truthy in
Python, so a present `patient_id=0` (resp. `doctor_id=0`) produces exactly
the same result as omitting the filter — the unfiltered set, not the set of
appointments whose id equals 0. -/
theorem C10_zero_filter_ignored (st : Store) (skip limit : Nat)
    (p d : Option Nat) (s : Option String) :
    get_appointments st skip limit (some 0) d s =
      get_appointments st skip limit none d s ∧
    get_appointments st skip limit p (some 0) s =
      get_appointments st skip limit p none s := by
  constructor
  · rfl
  · cases p <;> rfl

end AppointmentService
